import Mathlib

/-!
# TheWirelessMonitor — verification of the ingestion → scoring → event → digest pipeline

Shallow embedding of the core pipeline of `src/app/main.py` (class
`WirelessMonitor`), with the auxiliary scorer of `src/app/ai_analyzer.py`
(class `AIAnalyzer`).  Python strings are Lean `String`s, SQL `REAL` scores
are exact rationals `ℚ` (every comparison the claims depend on has a margin
far larger than any floating-point rounding error), and SQL date values are
ISO `YYYY-MM-DD` strings compared lexicographically, exactly as SQLite
compares the TEXT results of its `date(...)` function.  Quantities the
program reads from the wall clock (`datetime.now()` and its offsets such as
`date('now','-7 days')`) are passed as explicit parameters.

The SQLite tables become lists inside a `Store` structure; `AUTOINCREMENT`
primary keys become explicit `next…Id` counters.
-/

/-! ## Text primitives

Python `needle in haystack` (substring test) and `str.split()` (split on
whitespace, dropping empty fields). -/

/-- `needle` is a prefix of `haystack`, on character lists. -/
def charStartsWith : List Char → List Char → Bool
  | [], _ => true
  | _ :: _, [] => false
  | c :: n, d :: h => c == d && charStartsWith n h

/-- `needle` occurs contiguously inside `haystack`, on character lists
(Python's `needle in haystack`). -/
def charContainsSub (needle : List Char) : List Char → Bool
  | [] => charStartsWith needle []
  | c :: h => charStartsWith needle (c :: h) || charContainsSub needle h

/-- Python `needle in haystack` for strings. -/
def containsStr (haystack needle : String) : Bool :=
  charContainsSub needle.data haystack.data

/-- Accumulator splitter: cut a character list at whitespace, dropping empty
runs; `cur` holds the current word reversed. -/
def wordsAux : List Char → List Char → List (List Char)
  | [], cur => if cur.isEmpty then [] else [cur.reverse]
  | c :: rest, cur =>
    if c.isWhitespace then
      if cur.isEmpty then wordsAux rest [] else cur.reverse :: wordsAux rest []
    else wordsAux rest (c :: cur)

/-- Python `text.split()`: split on whitespace, discarding empty pieces. -/
def splitWords (t : String) : List String :=
  (wordsAux t.data []).map List.asString

/-- ASCII lower-casing, character by character (Python `str.lower()`;
the pipeline's keyword vocabulary is ASCII). -/
def lowerStr (s : String) : String := (s.data.map Char.toLower).asString

/-- `len(text.split())`. -/
def wordCount (t : String) : Nat := (splitWords t).length

/-- Lexicographic (byte-wise) strict order on character lists — exactly how
SQLite compares TEXT values, and how ISO `YYYY-MM-DD` dates order in time. -/
def charListLt : List Char → List Char → Bool
  | [], [] => false
  | [], _ :: _ => true
  | _ :: _, [] => false
  | c :: cs, d :: ds => decide (c < d) || (c == d && charListLt cs ds)

/-- SQLite TEXT `<` on strings. -/
def strLt (a b : String) : Bool := charListLt a.data b.data

/-- SQLite TEXT `<=` on strings. -/
def strLe (a b : String) : Bool := !(strLt b a)

/-- Python `min` on exact rationals, written with an explicit `if` so that it
evaluates by kernel reduction; equal to Mathlib's `min` (`ratMin_eq_min`). -/
def ratMin (a b : ℚ) : ℚ := if a ≤ b then a else b

theorem ratMin_eq_min (a b : ℚ) : ratMin a b = min a b := (min_def a b).symm

/-- Number of keywords of `kws` occurring in `text`
(`sum(1 for keyword in kws if keyword in text)`). -/
def keywordMatches (kws : List String) (text : String) : Nat :=
  (kws.filter (fun kw => containsStr text kw)).length

/-! ## Relevance scorer (`WirelessMonitor.calculate_relevance_score`,
`src/app/main.py` lines 1842–1861) -/

/-- `self.wifi_keywords` of `WirelessMonitor.__init__` (main.py lines 84–90). -/
def wifi_keywords : List String :=
  ["wifi", "wi-fi", "wireless", "802.11", "bluetooth", "5g", "6g", "lte",
   "cellular", "antenna", "spectrum", "frequency", "band", "router",
   "access point", "mesh", "networking", "connectivity", "broadband",
   "telecommunications", "radio", "signal", "interference", "latency",
   "bandwidth", "throughput", "iot", "internet of things", "smart home"]

/-- `important_keywords` local to `calculate_relevance_score` (main.py line 1852). -/
def important_keywords : List String := ["wifi", "wi-fi", "wireless", "5g", "6g"]

/-- `WirelessMonitor.calculate_relevance_score` (main.py lines 1842–1861).
Returns `0` when the text has no words; otherwise
`min(min(density*50, 0.8) + min(important_matches*0.1, 0.2), 1.0)`.
Note: the source returns this value directly, with no rounding. -/
def calculate_relevance_score (text : String) : ℚ :=
  let keyword_matches := keywordMatches wifi_keywords text
  let word_count := wordCount text
  if word_count = 0 then 0
  else
    let density : ℚ := (keyword_matches : ℚ) / (word_count : ℚ)
    let important_matches := keywordMatches important_keywords text
    let base_score := ratMin (density * 50) (8/10)
    let importance_boost := ratMin ((important_matches : ℚ) * (1/10)) (2/10)
    ratMin (base_score + importance_boost) 1

/-! ## The scorer of the spec's words (§4.4), for the refinement claim C2 -/

/-- Round to 3 decimals (`round(x, 3)`), half rounded up; Python rounds exact
halves to even, but no value compared by any claim sits on an exact half. -/
def round3 (q : ℚ) : ℚ := ((q * 1000 + 1/2).floor : ℚ) / 1000

/-- The scoring formula exactly as the spec states it, §4.4:
`density = distinctMatchedKeywords / wordCount`,
`baseScore = min(density * 50, 0.8)`,
`importanceBoost = min(importantMatches * 0.1, 0.2)`,
`score = min(baseScore + importanceBoost, 1.0)`, rounded to 3 decimals.
This definition follows the spec's words, to be compared with
`calculate_relevance_score`, which follows the source. -/
def spec_relevance_score (text : String) : ℚ :=
  let density : ℚ := (keywordMatches wifi_keywords text : ℚ) / (wordCount text : ℚ)
  let baseScore := ratMin (density * 50) (8/10)
  let importanceBoost := ratMin ((keywordMatches important_keywords text : ℚ) * (1/10)) (2/10)
  round3 (ratMin (baseScore + importanceBoost) 1)

/-- The spec's formula without the final rounding step (the amended C2). -/
def spec_relevance_score_unrounded (text : String) : ℚ :=
  let density : ℚ := (keywordMatches wifi_keywords text : ℚ) / (wordCount text : ℚ)
  let baseScore := ratMin (density * 50) (8/10)
  let importanceBoost := ratMin ((keywordMatches important_keywords text : ℚ) * (1/10)) (2/10)
  ratMin (baseScore + importanceBoost) 1

/-- `self.wifi_keywords` of `AIAnalyzer.__init__` (`src/app/ai_analyzer.py`
lines 19–28). -/
def aiAnalyzer_wifi_keywords : List String :=
  ["wifi", "wi-fi", "wireless", "802.11", "bluetooth", "5g", "6g", "lte",
   "cellular", "antenna", "spectrum", "frequency", "band", "router",
   "access point", "mesh", "networking", "connectivity", "broadband",
   "telecommunications", "radio", "signal", "interference", "latency",
   "bandwidth", "throughput", "iot", "internet of things", "smart home",
   "connected devices", "wireless charging", "nfc", "zigbee", "thread",
   "matter", "homekit", "alexa", "google home", "smart speaker",
   "wireless security", "wpa3", "encryption", "cybersecurity"]

/-- `important_keywords` of `AIAnalyzer.calculate_relevance_score`
(ai_analyzer.py line 125). -/
def aiAnalyzer_important_keywords : List String :=
  ["wifi", "wi-fi", "wireless", "5g", "6g", "802.11"]

/-- `AIAnalyzer.calculate_relevance_score` (ai_analyzer.py lines 107–134):
lower-cases internally, uses `keyword_density = matches / max(word_count,1) * 100`,
`base = min(keyword_density * 10, 0.8)`, `boost = min(important * 0.1, 0.3)`,
and rounds the capped sum to 3 decimals. -/
def aiAnalyzer_calculate_relevance_score (text : String) : ℚ :=
  let text_lower := lowerStr text
  let keyword_matches := keywordMatches aiAnalyzer_wifi_keywords text_lower
  let word_count := wordCount text
  let keyword_density : ℚ := (keyword_matches : ℚ) / (max word_count 1 : ℚ) * 100
  let important_matches := keywordMatches aiAnalyzer_important_keywords text_lower
  let base_score := ratMin (keyword_density * 10) (8/10)
  let importance_boost := ratMin ((important_matches : ℚ) * (1/10)) (3/10)
  round3 (ratMin (base_score + importance_boost) 1)

/-- A 63-word text with exactly one matched keyword (`router`) and no
important-keyword match: sixty-two filler words `a` followed by `router`. -/
def c2Text : String :=
  "a a a a a a a a a a a a a a a a a a a a a a a a a a a a a a a " ++
  "a a a a a a a a a a a a a a a a a a a a a a a a a a a a a a a router"

/-! ## Theorems for claims C2 and C3 -/

/-- C3: the relevance scorer is a pure deterministic function of the text
(it is a Lean function of the text alone, so two applications to the same
text are definitionally equal), and for every text — the empty string and
whitespace-only text included — its value lies in `[0, 1]`. -/
theorem c3_score_pure_and_bounded (text : String) :
    calculate_relevance_score text = calculate_relevance_score text ∧
    0 ≤ calculate_relevance_score text ∧ calculate_relevance_score text ≤ 1 := by
  refine ⟨rfl, ?_, ?_⟩ <;> unfold calculate_relevance_score <;> dsimp only <;>
    rw [ratMin_eq_min, ratMin_eq_min, ratMin_eq_min] <;> split
  · norm_num
  · positivity
  · norm_num
  · exact min_le_right _ _

unseal Rat.add Rat.mul Rat.inv Rat.sub in
/-- C2, counterexample.  On a 63-word text with exactly one matched keyword
(`router`) and no high-importance match, `WirelessMonitor.calculate_relevance_score`
returns `50/63 ≈ 0.7937` — the spec formula's value before rounding — not
the 3-decimal-rounded `0.794` the claim states; and
`AIAnalyzer.calculate_relevance_score` returns `0.8` (its base is
`density*1000` capped at `0.8`, not `density*50`).  So neither scorer
computes the claimed formula. -/
theorem c2_counterexample :
    calculate_relevance_score c2Text = 50/63 ∧
    spec_relevance_score c2Text = 794/1000 ∧
    calculate_relevance_score c2Text ≠ spec_relevance_score c2Text ∧
    aiAnalyzer_calculate_relevance_score c2Text ≠ spec_relevance_score c2Text := by
  decide

/-- C2, amended: for every text with at least one word, the ingestion scorer
`WirelessMonitor.calculate_relevance_score` computes exactly
`min(min(density*50, 0.8) + min(importantMatches*0.1, 0.2), 1.0)` — the
spec's formula WITHOUT the final rounding to 3 decimals (and it returns 0
for wordless text). -/
theorem c2_scorer_matches_unrounded_spec_formula (text : String)
    (h : wordCount text ≠ 0) :
    calculate_relevance_score text = spec_relevance_score_unrounded text := by
  unfold calculate_relevance_score spec_relevance_score_unrounded
  dsimp only
  rw [if_neg h]

/-- C2 witness: the amended theorem applied to a one-word text. -/
theorem c2_scorer_matches_unrounded_spec_formula_witness :
    wordCount "wireless" ≠ 0 ∧
    calculate_relevance_score "wireless" = spec_relevance_score_unrounded "wireless" :=
  ⟨by decide, c2_scorer_matches_unrounded_spec_formula "wireless" (by decide)⟩

/-! ## The persistence layer

Each SQLite table of `WirelessMonitor.init_database` (main.py lines 140–330)
that the pipeline claims touch becomes a list of typed rows; `AUTOINCREMENT`
ids become explicit counters.  Dates are ISO `YYYY-MM-DD` strings, compared
lexicographically exactly as SQLite compares the TEXT output of `date(...)`. -/

/-- Row of `rss_feeds` (id, name, url UNIQUE, active). -/
structure Feed where
  id : Nat
  name : String
  url : String
  active : Bool
deriving Repr, DecidableEq

/-- Row of `articles` (main.py lines 158–173, plus the `ALTER TABLE` columns). -/
structure Article where
  id : Nat
  feedId : Nat
  title : String
  url : String
  description : String
  content : String
  publishedDate : String
  relevanceScore : ℚ
  wifiKeywords : String
deriving Repr, DecidableEq

/-- Row of `industry_events` (main.py lines 203–214).  `hashtags` is the raw
comma-separated TEXT column, exactly as stored. -/
structure IndustryEvent where
  id : Nat
  name : String
  hashtags : String
  startDate : String
  endDate : String
  active : Bool
deriving Repr, DecidableEq

/-- Row of `event_articles` (main.py lines 216–226).  Note: the real schema
declares NO UNIQUE constraint on (event_id, article_id). -/
structure EventArticleLink where
  eventId : Nat
  articleId : Nat
  relevanceScore : ℚ
deriving Repr, DecidableEq

/-- Row of `weekly_digest` (main.py lines 243–253). -/
structure DigestEntry where
  articleId : Nat
  addedBy : String
  notes : String
  weekStart : String
deriving Repr, DecidableEq

/-- The SQLite database: one list per table plus `AUTOINCREMENT` counters
and the key/value `settings` table. -/
structure Store where
  nextFeedId : Nat
  nextArticleId : Nat
  nextEventId : Nat
  feeds : List Feed
  articles : List Article
  industryEvents : List IndustryEvent
  eventArticles : List EventArticleLink
  weeklyDigest : List DigestEntry
  settings : List (String × String)
deriving Repr, DecidableEq

/-- The empty database, as `init_database` leaves a fresh deployment. -/
def emptyStore : Store := ⟨1, 1, 1, [], [], [], [], [], []⟩

/-- C1's invariant: no persisted article has relevance at or below the
ingestion threshold 0.05. -/
def ArticleScoreInv (s : Store) : Prop :=
  ∀ a ∈ s.articles, (1/20 : ℚ) < a.relevanceScore

/-! ## Fetcher / Normalizer / persistence gate
(`WirelessMonitor.fetch_rss_feeds`, main.py lines 1709–1829)

One parsed feed entry, after feedparser and the BeautifulSoup markup strip:
the claims never depend on the HTML cleaning itself, so `summary` and
`content` here stand for the already-cleaned text. -/

structure RawEntry where
  title : String
  link : String
  summary : String
  content : String
  published : Option String
deriving Repr, DecidableEq

/-- The matched-keyword snapshot stored in `wifi_keywords`
(main.py lines 1765–1766): first five matching keywords, comma-joined. -/
def joinWith (sep : String) : List String → String
  | [] => ""
  | [x] => x
  | x :: rest => x ++ sep ++ joinWith sep rest

/-- `', '.join(found_keywords[:5])`. -/
def foundKeywordsStr (text : String) : String :=
  joinWith ", " ((wifi_keywords.filter (fun kw => containsStr text kw)).take 5)

/-- The scoring text of a feed entry:
`f"{title} {description} {content}".lower()` (main.py line 1760). -/
def entryText (e : RawEntry) : String :=
  lowerStr (e.title ++ " " ++ e.summary ++ " " ++ e.content)

/-- The body of the per-entry loop of `fetch_rss_feeds` (main.py lines
1727–1814): dedup on URL, normalize, score the lower-cased concatenation
`title description content`, and insert only when the score strictly
exceeds 0.05.  Returns the store and this entry's contribution to
`total_new_articles`. -/
def processEntry (nowDate : String) (feedId : Nat) (s : Store) (e : RawEntry) :
    Store × Nat :=
  if s.articles.any (fun a => a.url == e.link) then (s, 0)
  else
    let publishedDate := e.published.getD nowDate
    let text := entryText e
    let relevance_score := calculate_relevance_score text
    if (1/20 : ℚ) < relevance_score then
      ({ s with
          articles := s.articles ++
            [⟨s.nextArticleId, feedId, e.title, e.link, e.summary, e.content,
              publishedDate, relevance_score, foundKeywordsStr text⟩],
          nextArticleId := s.nextArticleId + 1 }, 1)
    else (s, 0)

/-- Sequential processing of a list of entries, threading the connection
state and summing the new-article count. -/
def processEntries (nowDate : String) (feedId : Nat) (s : Store) :
    List RawEntry → Store × Nat
  | [] => (s, 0)
  | e :: rest =>
    let r1 := processEntry nowDate feedId s e
    let r2 := processEntries nowDate feedId r1.1 rest
    (r2.1, r1.2 + r2.2)

/-- One feed's pass of `fetch_rss_feeds`: only the first 20 parsed entries
are considered (`for entry in parsed_feed.entries[:20]`, main.py line 1726). -/
def fetch_feed_entries (nowDate : String) (feedId : Nat) (s : Store)
    (entries : List RawEntry) : Store × Nat :=
  processEntries nowDate feedId s (entries.take 20)

/-! ## Web-search article ingestion
(`WirelessMonitor.add_web_article_to_db`, main.py lines 2238–2284) -/

/-- Input of `add_web_article_to_db` (`article_data`). -/
structure WebArticleData where
  source : String
  title : String
  url : String
  description : String
  publishedDate : String
deriving Repr, DecidableEq

/-- Python `s.replace(' ', '-')`. -/
def spacesToDashes (s : String) : String :=
  (s.data.map (fun c => if c = ' ' then '-' else c)).asString

/-- `WirelessMonitor.add_web_article_to_db`: get-or-create the synthetic
`Event Content: <source>` feed, score `title description` (NOT lower-cased
by this caller), then insert the article UNCONDITIONALLY — the source has
no relevance-threshold gate on this path. -/
def add_web_article_to_db (s : Store) (w : WebArticleData) : Store :=
  let feedName := "Event Content: " ++ w.source
  let r : Store × Nat :=
    match s.feeds.find? (fun f => f.name == feedName) with
    | some f => (s, f.id)
    | none =>
      let feedUrl := "https://event-content-generated/" ++ spacesToDashes (lowerStr w.source)
      ({ s with feeds := s.feeds ++ [⟨s.nextFeedId, feedName, feedUrl, false⟩],
                nextFeedId := s.nextFeedId + 1 }, s.nextFeedId)
  let relevance_score := calculate_relevance_score (w.title ++ " " ++ w.description)
  { r.1 with
      articles := r.1.articles ++
        [⟨r.1.nextArticleId, r.2, w.title, w.url, w.description, "",
          w.publishedDate, relevance_score, ""⟩],
      nextArticleId := r.1.nextArticleId + 1 }

/-! ## Lemmas about the per-entry loop -/

/-- An entry contributes at most one new article. -/
theorem processEntry_count_le_one (nowDate : String) (fid : Nat) (s : Store)
    (e : RawEntry) : (processEntry nowDate fid s e).2 ≤ 1 := by
  unfold processEntry; dsimp only
  split
  · exact Nat.zero_le 1
  · split
    · exact Nat.le_refl 1
    · exact Nat.zero_le 1

/-- Processing one entry grows `articles` by exactly its reported count. -/
theorem processEntry_articles_length (nowDate : String) (fid : Nat) (s : Store)
    (e : RawEntry) :
    (processEntry nowDate fid s e).1.articles.length
      = s.articles.length + (processEntry nowDate fid s e).2 := by
  unfold processEntry; dsimp only
  split
  · rfl
  · split
    · simp
    · rfl

/-- Processing one entry appends to `articles` (it never removes or edits). -/
theorem processEntry_articles_append (nowDate : String) (fid : Nat) (s : Store)
    (e : RawEntry) :
    ∃ new, (processEntry nowDate fid s e).1.articles = s.articles ++ new := by
  unfold processEntry; dsimp only
  split
  · exact ⟨[], (List.append_nil _).symm⟩
  · split
    · exact ⟨_, rfl⟩
    · exact ⟨[], (List.append_nil _).symm⟩

/-- Batch processing appends to `articles`. -/
theorem processEntries_articles_append (nowDate : String) (fid : Nat) :
    ∀ (l : List RawEntry) (s : Store),
      ∃ new, (processEntries nowDate fid s l).1.articles = s.articles ++ new
  | [], s => ⟨[], (List.append_nil _).symm⟩
  | e :: rest, s => by
    simp only [processEntries]
    obtain ⟨n1, h1⟩ := processEntry_articles_append nowDate fid s e
    obtain ⟨n2, h2⟩ :=
      processEntries_articles_append nowDate fid rest (processEntry nowDate fid s e).1
    exact ⟨n1 ++ n2, by rw [h2, h1, List.append_assoc]⟩

/-- Batch processing grows `articles` by exactly the reported count. -/
theorem processEntries_articles_length (nowDate : String) (fid : Nat) :
    ∀ (l : List RawEntry) (s : Store),
      (processEntries nowDate fid s l).1.articles.length
        = s.articles.length + (processEntries nowDate fid s l).2
  | [], s => rfl
  | e :: rest, s => by
    simp only [processEntries]
    have h1 := processEntry_articles_length nowDate fid s e
    have h2 :=
      processEntries_articles_length nowDate fid rest (processEntry nowDate fid s e).1
    omega

/-- The reported new-article count is at most the number of entries. -/
theorem processEntries_count_le (nowDate : String) (fid : Nat) :
    ∀ (l : List RawEntry) (s : Store), (processEntries nowDate fid s l).2 ≤ l.length
  | [], _ => Nat.le_refl 0
  | e :: rest, s => by
    simp only [processEntries, List.length_cons]
    have h1 := processEntry_count_le_one nowDate fid s e
    have h2 := processEntries_count_le nowDate fid rest (processEntry nowDate fid s e).1
    omega

/-! ## Claim C10 -/

/-- C10: a fetch cycle looks only at a feed's first 20 parsed entries —
processing any entry list is literally processing its first 20, so entries
beyond the 20th are never examined, scored or persisted — and consequently
one cycle adds at most 20 articles for the feed (and reports at most 20). -/
theorem c10_fetch_limited_to_first_20 (nowDate : String) (fid : Nat) (s : Store)
    (entries : List RawEntry) :
    fetch_feed_entries nowDate fid s entries
        = fetch_feed_entries nowDate fid s (entries.take 20) ∧
    (fetch_feed_entries nowDate fid s entries).2 ≤ 20 ∧
    (fetch_feed_entries nowDate fid s entries).1.articles.length
        ≤ s.articles.length + 20 := by
  refine ⟨?_, ?_, ?_⟩
  · unfold fetch_feed_entries
    rw [List.take_take]
    norm_num
  · calc (fetch_feed_entries nowDate fid s entries).2
        ≤ (entries.take 20).length := processEntries_count_le nowDate fid _ s
      _ ≤ 20 := List.length_take_le 20 entries
  · have h1 := processEntries_articles_length nowDate fid (entries.take 20) s
    have h2 : (processEntries nowDate fid s (entries.take 20)).2 ≤ 20 := by
      calc (processEntries nowDate fid s (entries.take 20)).2
          ≤ (entries.take 20).length := processEntries_count_le nowDate fid _ s
        _ ≤ 20 := List.length_take_le 20 entries
    unfold fetch_feed_entries
    omega

/-! ## Claim C1 -/

/-- Decidable restatement of the threshold invariant. -/
theorem articleScoreInv_iff_all (s : Store) :
    ArticleScoreInv s ↔
      (s.articles.all (fun a => decide ((1/20 : ℚ) < a.relevanceScore))) = true := by
  simp [ArticleScoreInv, List.all_eq_true]

/-- Processing one feed entry preserves the threshold invariant: the RSS
path only inserts behind `if relevance_score > 0.05` (main.py line 1768). -/
theorem processEntry_scoreInv (nowDate : String) (fid : Nat) (s : Store)
    (e : RawEntry) (h : ArticleScoreInv s) :
    ArticleScoreInv (processEntry nowDate fid s e).1 := by
  unfold processEntry; dsimp only
  split
  · exact h
  · split
    · rename_i hscore
      intro a ha
      rcases List.mem_append.1 ha with h1 | h2
      · exact h a h1
      · rcases List.mem_singleton.1 h2 with rfl
        exact hscore
    · exact h

/-- Batch processing preserves the threshold invariant. -/
theorem processEntries_scoreInv (nowDate : String) (fid : Nat) :
    ∀ (l : List RawEntry) (s : Store), ArticleScoreInv s →
      ArticleScoreInv (processEntries nowDate fid s l).1
  | [], _, h => h
  | e :: rest, s, h => by
    simp only [processEntries]
    exact processEntries_scoreInv nowDate fid rest _
      (processEntry_scoreInv nowDate fid s e h)

/-- C1, amended: the RSS fetch pipeline preserves the ingestion-threshold
invariant — every article it persists has relevance strictly above 0.05. -/
theorem c1_fetch_preserves_score_invariant (nowDate : String) (fid : Nat)
    (s : Store) (entries : List RawEntry) (h : ArticleScoreInv s) :
    ArticleScoreInv (fetch_feed_entries nowDate fid s entries).1 :=
  processEntries_scoreInv nowDate fid (entries.take 20) s h

/-- C1 witness: the amended preservation theorem applied to the empty store
and one concrete wireless entry. -/
theorem c1_fetch_preserves_score_invariant_witness :
    ArticleScoreInv emptyStore ∧
    ArticleScoreInv (fetch_feed_entries "2026-10-12" 1 emptyStore
      [⟨"New Wi-Fi 7 router launched", "https://ex.com/wifi7", "6GHz support", "",
        some "2026-10-11"⟩]).1 :=
  have h : ArticleScoreInv emptyStore := by
    intro a ha; simp [emptyStore] at ha
  ⟨h, c1_fetch_preserves_score_invariant "2026-10-12" 1 emptyStore _ h⟩

/-- Web-search article that matches no domain keyword at all. -/
def c1Web : WebArticleData :=
  ⟨"Example Wire", "Quarterly earnings roundup", "https://example.com/earnings",
   "General market news summary.", "2026-10-10"⟩

unseal Rat.add Rat.mul Rat.inv Rat.sub in
/-- C1, counterexample: `add_web_article_to_db` (the web-search ingestion
used for event content, main.py lines 2238–2284) has NO threshold gate — on
an empty store it persists a zero-relevance article, so the claimed
whole-store invariant is violated by a reachable state. -/
theorem c1_counterexample :
    ArticleScoreInv emptyStore ∧
    ¬ ArticleScoreInv (add_web_article_to_db emptyStore c1Web) ∧
    (add_web_article_to_db emptyStore c1Web).articles.map
        (fun a => a.relevanceScore) = [0] := by
  refine ⟨?_, ?_, ?_⟩
  · rw [articleScoreInv_iff_all]; decide
  · rw [articleScoreInv_iff_all]; decide
  · decide

/-! ## Claim C4 -/

/-- The URL column of the articles table. -/
def articleUrls (s : Store) : List String := s.articles.map (fun a => a.url)

/-- The urls table membership test used by the dedup gate
(`SELECT id FROM articles WHERE url = ?`, main.py line 1728). -/
theorem urlSeen_iff (s : Store) (link : String) :
    (s.articles.any (fun a => a.url == link)) = true ↔ link ∈ articleUrls s := by
  simp only [List.any_eq_true, beq_iff_eq, articleUrls, List.mem_map]

/-- Processing one entry keeps article URLs duplicate-free: the insert is
guarded by the URL-dedup lookup (and the schema's `url UNIQUE`). -/
theorem processEntry_urls_nodup (nowDate : String) (fid : Nat) (s : Store)
    (e : RawEntry) (h : (articleUrls s).Nodup) :
    (articleUrls (processEntry nowDate fid s e).1).Nodup := by
  unfold processEntry; dsimp only
  by_cases hd : (s.articles.any (fun a => a.url == e.link)) = true
  · rw [if_pos hd]; exact h
  · rw [if_neg hd]
    have hnotin : e.link ∉ articleUrls s := fun hmem =>
      hd ((urlSeen_iff s e.link).2 hmem)
    split
    · simp only [articleUrls, List.map_append, List.map_cons, List.map_nil]
      refine List.Nodup.append h (List.nodup_singleton _) ?_
      intro u hu hu2
      rcases List.mem_singleton.1 hu2 with rfl
      exact hnotin hu
    · exact h

/-- Batch processing keeps article URLs duplicate-free. -/
theorem processEntries_urls_nodup (nowDate : String) (fid : Nat) :
    ∀ (l : List RawEntry) (s : Store), (articleUrls s).Nodup →
      (articleUrls (processEntries nowDate fid s l).1).Nodup
  | [], _, h => h
  | e :: rest, s, h => by
    simp only [processEntries]
    exact processEntries_urls_nodup nowDate fid rest _
      (processEntry_urls_nodup nowDate fid s e h)

/-- URLs already present stay present through the batch. -/
theorem processEntries_urls_mono (nowDate : String) (fid : Nat)
    (l : List RawEntry) (s : Store) (u : String) (h : u ∈ articleUrls s) :
    u ∈ articleUrls (processEntries nowDate fid s l).1 := by
  obtain ⟨new, hnew⟩ := processEntries_articles_append nowDate fid l s
  simp only [articleUrls, hnew, List.map_append, List.mem_append]
  exact Or.inl h

/-- An entry whose score clears the threshold has its URL present right
after its own processing step. -/
theorem processEntry_link_mem (nowDate : String) (fid : Nat) (s : Store)
    (e : RawEntry)
    (hs : (1/20 : ℚ) < calculate_relevance_score (entryText e)) :
    e.link ∈ articleUrls (processEntry nowDate fid s e).1 := by
  unfold processEntry; dsimp only
  by_cases hd : (s.articles.any (fun a => a.url == e.link)) = true
  · rw [if_pos hd]; exact (urlSeen_iff s e.link).1 hd
  · rw [if_neg hd, if_pos hs]
    simp [articleUrls]

/-- After a batch, every entry whose score clears the threshold has its URL
present in the store (it was either already there, or was just inserted). -/
theorem processEntries_url_present (nowDate : String) (fid : Nat) :
    ∀ (l : List RawEntry) (s : Store), ∀ e ∈ l,
      ¬ ((1/20 : ℚ) < calculate_relevance_score (entryText e)) ∨
        e.link ∈ articleUrls (processEntries nowDate fid s l).1
  | [], _, e, he => absurd he (List.not_mem_nil e)
  | e :: rest, s, f, hf => by
    rcases List.mem_cons.1 hf with rfl | hmem
    · by_cases hs : (1/20 : ℚ) < calculate_relevance_score (entryText f)
      · right
        simp only [processEntries]
        exact processEntries_urls_mono nowDate fid rest _ f.link
          (processEntry_link_mem nowDate fid s f hs)
      · exact Or.inl hs
    · simp only [processEntries]
      exact processEntries_url_present nowDate fid rest _ f hmem

/-- If every entry of the batch is either below threshold or already stored,
the batch is a complete no-op and reports zero new articles. -/
theorem processEntries_noop (nowDate : String) (fid : Nat) :
    ∀ (l : List RawEntry) (s : Store),
      (∀ e ∈ l, ¬ ((1/20 : ℚ) < calculate_relevance_score (entryText e)) ∨
        e.link ∈ articleUrls s) →
      processEntries nowDate fid s l = (s, 0)
  | [], s, _ => rfl
  | e :: rest, s, h => by
    have hhead : processEntry nowDate fid s e = (s, 0) := by
      unfold processEntry; dsimp only
      by_cases hd : (s.articles.any (fun a => a.url == e.link)) = true
      · rw [if_pos hd]
      · rw [if_neg hd]
        rcases h e (List.mem_cons_self e rest) with hlow | hin
        · rw [if_neg hlow]
        · exact absurd ((urlSeen_iff s e.link).2 hin) hd
    have hrest : processEntries nowDate fid s rest = (s, 0) :=
      processEntries_noop nowDate fid rest s
        (fun f hf => h f (List.mem_cons_of_mem e hf))
    simp only [processEntries, hhead, hrest]

/-- C4: re-running the fetch pipeline on identical entries leaves article
URLs duplicate-free (at most one Article per URL), reports zero new
articles, and changes nothing in the store. -/
theorem c4_refetch_idempotent (nowDate : String) (fid : Nat) (s : Store)
    (entries : List RawEntry) (h : (articleUrls s).Nodup) :
    (articleUrls (fetch_feed_entries nowDate fid
        (fetch_feed_entries nowDate fid s entries).1 entries).1).Nodup ∧
    (fetch_feed_entries nowDate fid
        (fetch_feed_entries nowDate fid s entries).1 entries).2 = 0 ∧
    (fetch_feed_entries nowDate fid
        (fetch_feed_entries nowDate fid s entries).1 entries).1
      = (fetch_feed_entries nowDate fid s entries).1 := by
  unfold fetch_feed_entries
  have hpresent := processEntries_url_present nowDate fid (entries.take 20) s
  have hnoop := processEntries_noop nowDate fid (entries.take 20)
    (processEntries nowDate fid s (entries.take 20)).1 hpresent
  refine ⟨?_, ?_, ?_⟩
  · rw [hnoop]
    exact processEntries_urls_nodup nowDate fid (entries.take 20) s h
  · rw [hnoop]
  · rw [hnoop]

/-- C4 witness: re-fetching one concrete relevant entry over the empty store
keeps one article and reports zero the second time. -/
theorem c4_refetch_idempotent_witness :
    (articleUrls emptyStore).Nodup ∧
    (fetch_feed_entries "2026-10-12" 1
      (fetch_feed_entries "2026-10-12" 1 emptyStore
        [⟨"Wi-Fi 7 mesh router", "https://ex.com/r", "wireless", "", none⟩]).1
      [⟨"Wi-Fi 7 mesh router", "https://ex.com/r", "wireless", "", none⟩]).2 = 0 :=
  have h : (articleUrls emptyStore).Nodup := by simp [articleUrls, emptyStore]
  ⟨h, (c4_refetch_idempotent "2026-10-12" 1 emptyStore _ h).2.1⟩

/-! ## Retention sweep (`WirelessMonitor.cleanup_old_articles`,
main.py lines 2608–2616) and claim C8 -/

/-- `DELETE FROM articles WHERE published_date < DATE("now", "-30 days")`:
`cutoff` stands for the TEXT value of `DATE("now", "-30 days")`.  The sweep
touches no other table; in particular it issues no delete against
`event_articles`, the schema declares no `ON DELETE CASCADE`, and the
connection (`get_db_connection`, main.py lines 389–393) never enables
SQLite foreign-key enforcement. -/
def cleanup_old_articles (cutoff : String) (s : Store) : Store :=
  { s with articles := s.articles.filter (fun a => !(strLt a.publishedDate cutoff)) }

/-- C8, amended: the sweep removes every article older than the 30-day
cutoff, keeps the newer ones, and leaves the event-article link table
completely untouched (so links to deleted articles are orphaned, not
cascaded). -/
theorem c8_cleanup_removes_old_articles_keeps_links (cutoff : String) (s : Store) :
    (∀ a ∈ s.articles, strLt a.publishedDate cutoff = true →
        a ∉ (cleanup_old_articles cutoff s).articles) ∧
    (∀ a ∈ s.articles, strLt a.publishedDate cutoff = false →
        a ∈ (cleanup_old_articles cutoff s).articles) ∧
    (cleanup_old_articles cutoff s).eventArticles = s.eventArticles := by
  refine ⟨?_, ?_, rfl⟩
  · intro a _ hold hmem
    have h2 := (List.mem_filter.1 hmem).2
    rw [hold] at h2
    exact Bool.false_ne_true h2
  · intro a ha hnew
    exact List.mem_filter.2 ⟨ha, by rw [hnew]; rfl⟩

/-- Concrete store for the C8 counterexample: one article 42 days old,
linked to one event. -/
def c8Store : Store :=
  { emptyStore with
    nextArticleId := 2, nextEventId := 2,
    articles := [⟨1, 1, "Old wireless story", "https://ex.com/old", "wifi", "",
                  "2026-08-31", 1/2, "wifi"⟩],
    industryEvents := [⟨1, "CES 2026", "#CES2026,#5G", "2026-01-07", "2026-01-10",
                        true⟩],
    eventArticles := [⟨1, 1, 1/2⟩] }

unseal Rat.add Rat.mul Rat.inv Rat.sub in
/-- C8, counterexample: after the sweep (cutoff `2026-09-12`, i.e. 30 days
before `2026-10-12`), the old article is gone but its EventArticleLink row
survives, referencing an articleId that no longer exists — the claim's
"no link row is left referencing a deleted article" is false. -/
theorem c8_counterexample :
    (cleanup_old_articles "2026-09-12" c8Store).articles = [] ∧
    (cleanup_old_articles "2026-09-12" c8Store).eventArticles.map
        (fun l => l.articleId) = [1] ∧
    ¬ (∀ l ∈ (cleanup_old_articles "2026-09-12" c8Store).eventArticles,
        ∃ a ∈ (cleanup_old_articles "2026-09-12" c8Store).articles,
          a.id = l.articleId) := by
  refine ⟨by decide, by decide, ?_⟩
  intro h
  rcases h ⟨1, 1, 1/2⟩ (by decide) with ⟨a, ha, _⟩
  have hempty : (cleanup_old_articles "2026-09-12" c8Store).articles = [] := by decide
  rw [hempty] at ha
  exact List.not_mem_nil a ha

unseal Rat.add Rat.mul Rat.inv Rat.sub in
/-- C8 witness: the amended theorem applied to the concrete store — the old
article is removed (and, by the theorem's third conjunct, the link table is
unchanged). -/
theorem c8_cleanup_witness :
    (⟨1, 1, "Old wireless story", "https://ex.com/old", "wifi", "",
      "2026-08-31", 1/2, "wifi"⟩ : Article) ∈ c8Store.articles ∧
    strLt "2026-08-31" "2026-09-12" = true ∧
    (⟨1, 1, "Old wireless story", "https://ex.com/old", "wifi", "",
      "2026-08-31", 1/2, "wifi"⟩ : Article)
      ∉ (cleanup_old_articles "2026-09-12" c8Store).articles := by
  refine ⟨by decide, by decide, ?_⟩
  exact (c8_cleanup_removes_old_articles_keeps_links "2026-09-12" c8Store).1
    _ (by decide) (by decide)

/-! ## Scheduler and job error handling, claim C9

Python exceptions are modelled with `Except`: a handler body is a
computation over the outcomes of its fallible DB/network steps, and a
`try/except` of the source becomes an explicit `match`.  The embedding
mirrors exactly which bodies the source wraps in `try/except`:

* `auto_generate_weekly_digest` (main.py 3920–3976) wraps its WHOLE body —
  `except Exception as e: logger.error(...)` — so it never propagates;
* `fetch_rss_feeds` (main.py 1709–1829) wraps only the PER-FEED loop body
  (`except Exception as e: logger.error("Error fetching feed ...")`);
  its preamble (`get_db_connection`, the `rss_feeds` SELECT) and its final
  settings-update/commit run outside any `try`;
* `cleanup_old_articles` (main.py 2608–2616) has NO `try/except` at all;
* `run_scheduler` (main.py 3978–3982) is a bare
  `while self.running: schedule.run_pending(); time.sleep(60)` — the
  `schedule` library lets a job's exception propagate out of
  `run_pending`, and the loop catches nothing. -/

/-- Error raised by a fallible step of a job (`sqlite3.OperationalError`,
network failure, ...). -/
inductive JobError where
  | dbError : String → JobError
  | networkError : String → JobError
deriving Repr, DecidableEq

/-- `cleanup_old_articles` as a job: its single fallible step is the
`DELETE`; there is no `try/except`, so whatever the step raises
propagates. -/
def cleanup_job (deleteStep : Except JobError Nat) : Except JobError Unit := do
  let _ ← deleteStep
  pure ()

/-- `auto_generate_weekly_digest` as a job: the whole body sits inside
`try: ... except Exception as e: logger.error(...)`, so every error is
swallowed. -/
def digest_job (body : Except JobError Unit) : Except JobError Unit :=
  match body with
  | Except.error _ => Except.ok ()
  | Except.ok x => Except.ok x

/-- `fetch_rss_feeds` as a job: each per-feed body is wrapped in its own
`try/except` (errors logged and swallowed), but the preamble and the final
settings-update/commit are not protected. -/
def fetch_job (preamble : Except JobError Unit)
    (perFeed : List (Except JobError Unit)) (finalize : Except JobError Unit) :
    Except JobError Unit := do
  let _ ← preamble
  let _ := perFeed.map (fun r => match r with
    | Except.error _ => ()
    | Except.ok _ => ())
  finalize

/-- `schedule.run_pending()`: due jobs run in order; the first uncaught
exception propagates and the remaining jobs of this tick do not run. -/
def run_pending (jobs : List (Except JobError Unit)) : Except JobError Unit :=
  match jobs with
  | [] => Except.ok ()
  | j :: rest => do
    let _ ← j
    run_pending rest

/-- The `run_scheduler` loop over successive ticks: no `try/except`, so an
error escaping `run_pending` terminates the loop (the thread dies) and no
later tick is dispatched. -/
def run_scheduler (ticks : List (List (Except JobError Unit))) :
    Except JobError Unit :=
  match ticks with
  | [] => Except.ok ()
  | t :: rest => do
    let _ ← run_pending t
    run_scheduler rest

/-- C9, counterexample: a database error inside the retention-sweep handler
(`cleanup_old_articles` has no `try/except`) escapes `run_pending` and
kills the scheduler loop — the next tick (here a digest job that would
succeed) is never dispatched.  So not every handler error is caught. -/
theorem c9_counterexample :
    run_scheduler
        [[cleanup_job (Except.error (JobError.dbError "database is locked"))],
         [digest_job (Except.ok ())]]
      = Except.error (JobError.dbError "database is locked") := rfl

/-- C9, amended: the digest handler never propagates any error, and the
fetch handler survives arbitrary per-feed failures as long as its
unprotected preamble and finalize steps succeed; but the retention-sweep
handler propagates every error of its DELETE step, and the scheduler loop
itself catches nothing. -/
theorem c9_error_containment (body : Except JobError Unit)
    (perFeed : List (Except JobError Unit)) (e : JobError) :
    digest_job body = Except.ok () ∧
    fetch_job (Except.ok ()) perFeed (Except.ok ()) = Except.ok () ∧
    cleanup_job (Except.error e) = Except.error e ∧
    run_pending [cleanup_job (Except.error e)] = Except.error e := by
  refine ⟨?_, rfl, rfl, rfl⟩
  cases body <;> rfl

/-- C9 witness: the amended containment theorem at concrete jobs. -/
theorem c9_error_containment_witness :
    digest_job (Except.error (JobError.dbError "disk full")) = Except.ok () ∧
    fetch_job (Except.ok ())
        [Except.error (JobError.networkError "timeout"), Except.ok ()]
        (Except.ok ()) = Except.ok () ∧
    cleanup_job (Except.error (JobError.dbError "locked"))
        = Except.error (JobError.dbError "locked") ∧
    run_pending [cleanup_job (Except.error (JobError.dbError "locked"))]
        = Except.error (JobError.dbError "locked") :=
  c9_error_containment (Except.error (JobError.dbError "disk full"))
    [Except.error (JobError.networkError "timeout"), Except.ok ()]
    (JobError.dbError "locked")

/-! ## Weekly digest builder
(`WirelessMonitor.auto_generate_weekly_digest`, main.py lines 3920–3976,
and the `/api/generate_weekly_digest` route, main.py lines 1168–1223; both
run the same marker-check / select / insert / set-marker sequence) -/

/-- Insert into a sorted list, structurally (kernel-computable). -/
def insertSorted {α : Type} (le : α → α → Bool) (a : α) : List α → List α
  | [] => [a]
  | b :: bs => if le a b then a :: b :: bs else b :: insertSorted le a bs

/-- Insertion sort; models the SQL `ORDER BY` (whose tie order SQLite leaves
unspecified anyway — every claim depends only on lengths and row fields). -/
def insertionSort {α : Type} (le : α → α → Bool) : List α → List α
  | [] => []
  | a :: as => insertSorted le a (insertionSort le as)

theorem insertSorted_length {α : Type} (le : α → α → Bool) (a : α) :
    ∀ l : List α, (insertSorted le a l).length = l.length + 1
  | [] => rfl
  | b :: bs => by
    simp only [insertSorted]
    split
    · rfl
    · simp only [List.length_cons, insertSorted_length le a bs]

theorem insertionSort_length {α : Type} (le : α → α → Bool) :
    ∀ l : List α, (insertionSort le l).length = l.length
  | [] => rfl
  | a :: as => by
    simp only [insertionSort, List.length_cons, insertSorted_length,
      insertionSort_length le as]

/-- `ORDER BY relevance_score DESC, published_date DESC`. -/
def digestOrder (a b : Article) : Bool :=
  decide (b.relevanceScore < a.relevanceScore) ||
    (decide (a.relevanceScore = b.relevanceScore) &&
      strLe b.publishedDate a.publishedDate)

/-- The idempotency key `f'digest_generated_{week_start}'`. -/
def digestMarkerKey (weekStart : String) : String :=
  "digest_generated_" ++ weekStart

/-- The `WHERE` clause of the digest select: published inside the trailing
week, `relevance_score > 0.3`, and not already in this week's digest
(`id NOT IN (SELECT article_id FROM weekly_digest WHERE week_start = ?)`). -/
def digestEligible (sevenDaysAgo today weekStart : String) (s : Store)
    (a : Article) : Bool :=
  strLe sevenDaysAgo a.publishedDate && strLe a.publishedDate today &&
  decide ((3/10 : ℚ) < a.relevanceScore) &&
  !(s.weeklyDigest.any (fun d => d.weekStart == weekStart && d.articleId == a.id))

/-- The digest select: eligible articles ordered by score then recency,
`LIMIT 6`. -/
def topDigestArticles (sevenDaysAgo today weekStart : String) (s : Store) :
    List Article :=
  (insertionSort digestOrder
    (s.articles.filter (digestEligible sevenDaysAgo today weekStart s))).take 6

/-- `auto_generate_weekly_digest`: `weekStart` stands for
`today - timedelta(days=today.weekday())`, `sevenDaysAgo` for `today - 7
days`.  If the week's marker is present in `settings`, do nothing;
otherwise insert the top-6 select as `added_by='system'` rows and set the
marker (whose value is the current timestamp; the scheduled variant also
embeds the score in the free-text `notes` — immaterial to every claim). -/
def auto_generate_weekly_digest (today sevenDaysAgo weekStart : String)
    (s : Store) : Store :=
  if s.settings.any (fun kv => kv.1 == digestMarkerKey weekStart) then s
  else
    let top := topDigestArticles sevenDaysAgo today weekStart s
    { s with
      weeklyDigest := s.weeklyDigest ++
        top.map (fun a => ⟨a.id, "system", "Auto-selected top story", weekStart⟩),
      settings := s.settings ++ [(digestMarkerKey weekStart, today)] }

/-- C5, amended: if the week's marker is absent and at least 8 articles of
the trailing week score above 0.3 AND are not already in that week's digest,
then the first run appends exactly 6 rows, all system-authored for that
week, and sets the marker; and the second run in the same week changes
nothing at all (zero rows added, identical entry set). -/
theorem c5_digest_builder_first_run_six_rows_second_run_noop
    (today sevenDaysAgo weekStart : String) (s : Store)
    (hmarker : s.settings.any (fun kv => kv.1 == digestMarkerKey weekStart) = false)
    (helig : 8 ≤ (s.articles.filter
        (digestEligible sevenDaysAgo today weekStart s)).length) :
    (∃ newRows,
      (auto_generate_weekly_digest today sevenDaysAgo weekStart s).weeklyDigest
          = s.weeklyDigest ++ newRows ∧
      newRows.length = 6 ∧
      ∀ d ∈ newRows, d.addedBy = "system" ∧ d.weekStart = weekStart) ∧
    (auto_generate_weekly_digest today sevenDaysAgo weekStart s).settings.any
        (fun kv => kv.1 == digestMarkerKey weekStart) = true ∧
    auto_generate_weekly_digest today sevenDaysAgo weekStart
        (auto_generate_weekly_digest today sevenDaysAgo weekStart s)
      = auto_generate_weekly_digest today sevenDaysAgo weekStart s := by
  have hlen : (topDigestArticles sevenDaysAgo today weekStart s).length = 6 := by
    unfold topDigestArticles
    rw [List.length_take, insertionSort_length]
    omega
  have hmarkerset :
      (auto_generate_weekly_digest today sevenDaysAgo weekStart s).settings.any
        (fun kv => kv.1 == digestMarkerKey weekStart) = true := by
    simp only [auto_generate_weekly_digest, hmarker, Bool.false_eq_true,
      if_false, List.any_append, List.any_cons, List.any_nil]
    simp
  refine ⟨?_, hmarkerset, ?_⟩
  · refine ⟨(topDigestArticles sevenDaysAgo today weekStart s).map
      (fun a => ⟨a.id, "system", "Auto-selected top story", weekStart⟩), ?_, ?_, ?_⟩
    · simp only [auto_generate_weekly_digest, hmarker, Bool.false_eq_true, if_false]
    · rw [List.length_map, hlen]
    · intro d hd
      rcases List.mem_map.1 hd with ⟨a, _, rfl⟩
      exact ⟨rfl, rfl⟩
  · rw [auto_generate_weekly_digest]
    rw [if_pos hmarkerset]

/-- Store for the C5 counterexample: eight articles of the trailing week all
scoring 0.4 > 0.3 — but three of them already sit in this week's digest as
manual entries. -/
def c5Store : Store :=
  { emptyStore with
    nextArticleId := 9,
    articles :=
      [⟨1, 1, "wifi story 1", "https://ex.com/1", "wireless", "", "2026-10-08", 2/5, "wifi"⟩,
       ⟨2, 1, "wifi story 2", "https://ex.com/2", "wireless", "", "2026-10-08", 2/5, "wifi"⟩,
       ⟨3, 1, "wifi story 3", "https://ex.com/3", "wireless", "", "2026-10-08", 2/5, "wifi"⟩,
       ⟨4, 1, "wifi story 4", "https://ex.com/4", "wireless", "", "2026-10-08", 2/5, "wifi"⟩,
       ⟨5, 1, "wifi story 5", "https://ex.com/5", "wireless", "", "2026-10-08", 2/5, "wifi"⟩,
       ⟨6, 1, "wifi story 6", "https://ex.com/6", "wireless", "", "2026-10-08", 2/5, "wifi"⟩,
       ⟨7, 1, "wifi story 7", "https://ex.com/7", "wireless", "", "2026-10-08", 2/5, "wifi"⟩,
       ⟨8, 1, "wifi story 8", "https://ex.com/8", "wireless", "", "2026-10-08", 2/5, "wifi"⟩],
    weeklyDigest :=
      [⟨1, "user", "picked by hand", "2026-10-06"⟩,
       ⟨2, "user", "picked by hand", "2026-10-06"⟩,
       ⟨3, "user", "picked by hand", "2026-10-06"⟩] }

unseal Rat.add Rat.mul Rat.inv Rat.sub in
/-- C5, counterexample: `c5Store` has 8 qualifying articles of the trailing
week (score > 0.3) and no idempotency marker, yet the first builder run
creates only 5 system rows, not the claimed 6 — the `NOT IN` clause
excludes the three articles already in the week's digest, and only 5
eligible articles remain for `LIMIT 6`. -/
theorem c5_counterexample :
    (c5Store.articles.filter (fun a =>
        strLe "2026-10-03" a.publishedDate && strLe a.publishedDate "2026-10-10" &&
        decide ((3/10 : ℚ) < a.relevanceScore))).length = 8 ∧
    c5Store.settings = [] ∧
    ((auto_generate_weekly_digest "2026-10-10" "2026-10-03" "2026-10-06"
        c5Store).weeklyDigest.filter
      (fun d => d.addedBy == "system" && d.weekStart == "2026-10-06")).length = 5 := by
  refine ⟨by decide, rfl, by decide⟩

/-- Store for the C5 witness: same eight qualifying articles, none of them
already in the week's digest. -/
def c5WitnessStore : Store :=
  { c5Store with weeklyDigest := [] }

unseal Rat.add Rat.mul Rat.inv Rat.sub in
/-- C5 witness: the amended theorem applied to `c5WitnessStore` — both
hypotheses hold there and the first run appends exactly 6 system rows. -/
theorem c5_digest_builder_witness :
    (c5WitnessStore.settings.any
        (fun kv => kv.1 == digestMarkerKey "2026-10-06")) = false ∧
    8 ≤ (c5WitnessStore.articles.filter
        (digestEligible "2026-10-03" "2026-10-10" "2026-10-06" c5WitnessStore)).length ∧
    (∃ newRows,
      (auto_generate_weekly_digest "2026-10-10" "2026-10-03" "2026-10-06"
          c5WitnessStore).weeklyDigest = c5WitnessStore.weeklyDigest ++ newRows ∧
      newRows.length = 6 ∧
      ∀ d ∈ newRows, d.addedBy = "system" ∧ d.weekStart = "2026-10-06") :=
  have h1 : (c5WitnessStore.settings.any
      (fun kv => kv.1 == digestMarkerKey "2026-10-06")) = false := by decide
  have h2 : 8 ≤ (c5WitnessStore.articles.filter
      (digestEligible "2026-10-03" "2026-10-10" "2026-10-06" c5WitnessStore)).length := by
    decide
  ⟨h1, h2, (c5_digest_builder_first_run_six_rows_second_run_noop
      "2026-10-10" "2026-10-03" "2026-10-06" c5WitnessStore h1 h2).1⟩

/-! ## Event correlator
(`WirelessMonitor.analyze_articles_for_events`, main.py lines 1862–1928;
the claims' correlation pass is lines 1897–1919)

The pass queries the active-event window, derives keywords from each
event's hashtag column, and links matching recent articles not already
linked to the event.  Event detection (`detect_new_events_from_articles`),
which the full function runs first, only adds `industry_events` rows and is
modelled separately for claim C7; claim C6 fixes the event set.  `today`,
`todayPlus14`, `todayMinus5`, `fiveDaysAgo` stand for the TEXT values of
`date('now')` and its offsets. -/

/-- Python `s.replace('#', '')`. -/
def removeHash (t : String) : String :=
  (t.data.filter (fun c => c ≠ '#')).asString

/-- Python `s.strip()`. -/
def trimStr (t : String) : String :=
  (((t.data.dropWhile Char.isWhitespace).reverse.dropWhile
      Char.isWhitespace).reverse).asString

/-- Python `s.split(',')` (keeps empty pieces). -/
def splitCommaAux : List Char → List Char → List String
  | [], cur => [cur.reverse.asString]
  | c :: rest, cur =>
    if c = ',' then cur.reverse.asString :: splitCommaAux rest []
    else splitCommaAux rest (c :: cur)

/-- Python `s.split(',')`. -/
def splitComma (t : String) : List String := splitCommaAux t.data []

/-- `tag.replace('#', '').lower().strip()` (main.py line 1889). -/
def tagToKeyword (t : String) : String := trimStr (lowerStr (removeHash t))

/-- Keyword list of an event (main.py lines 1888–1889):
`hashtags.split(',')` when the column is non-empty, mapped through
`tagToKeyword`. -/
def eventKeywords (e : IndustryEvent) : List String :=
  if e.hashtags == "" then [] else (splitComma e.hashtags).map tagToKeyword

/-- The active-event window of the correlator's SQL (main.py lines
1870–1878): active, and start date within [today, today+14] or end date
within [today−5, today]. -/
def eventIsActive (today todayPlus14 todayMinus5 : String)
    (e : IndustryEvent) : Bool :=
  e.active &&
    ((strLe today e.startDate && strLe e.startDate todayPlus14) ||
     (strLe todayMinus5 e.endDate && strLe e.endDate today))

/-- `event_relevance = min((title_matches*0.4 + desc_matches*0.3) /
len(keywords), 1.0)` (main.py lines 1908–1912). -/
def eventRelevance (keywords : List String) (a : Article) : ℚ :=
  let title_matches :=
    (keywords.filter (fun k => containsStr (lowerStr a.title) k)).length
  let desc_matches :=
    (keywords.filter (fun k => containsStr (lowerStr a.description) k)).length
  ratMin (((title_matches : ℚ) * (4/10) + (desc_matches : ℚ) * (3/10))
    / (keywords.length : ℚ)) 1

/-- The `NOT IN (SELECT article_id FROM event_articles WHERE event_id = ?)`
membership test. -/
def hasLink (s : Store) (eid aid : Nat) : Bool :=
  s.eventArticles.any (fun l => l.eventId == eid && l.articleId == aid)

/-- The per-keyword article query (main.py lines 1899–1905): title or
description contains the keyword (both sides lower-cased), published within
the last five days, and not already linked to this event. -/
def keywordArticleMatches (fiveDaysAgo : String) (s : Store) (evId : Nat)
    (kw : String) : List Article :=
  s.articles.filter (fun a =>
    (containsStr (lowerStr a.title) kw || containsStr (lowerStr a.description) kw) &&
    strLe fiveDaysAgo a.publishedDate &&
    !(hasLink s evId a.id))

/-- The inner `for article in articles` loop (main.py lines 1907–1919):
score each matched article and insert the link when relevance
exceeds 0.15. -/
def addMatches (evId : Nat) (keywords : List String) (s : Store) :
    List Article → Store
  | [] => s
  | a :: rest =>
    let rel := eventRelevance keywords a
    let s1 :=
      if (15/100 : ℚ) < rel then
        { s with eventArticles := s.eventArticles ++ [⟨evId, a.id, rel⟩] }
      else s
    addMatches evId keywords s1 rest

/-- The `for keyword in keywords[:8]` loop (main.py line 1898), threading
the connection state: each keyword re-queries against the links inserted so
far. -/
def correlateKeywords (fiveDaysAgo : String) (evId : Nat)
    (allKeywords : List String) (s : Store) : List String → Store
  | [] => s
  | kw :: rest =>
    let ms := keywordArticleMatches fiveDaysAgo s evId kw
    correlateKeywords fiveDaysAgo evId allKeywords
      (addMatches evId allKeywords s ms) rest

/-- One event's correlation (main.py lines 1886–1919): derive keywords from
the hashtag column, skip the event when there are none, else run the
first eight keywords. -/
def correlateEvent (fiveDaysAgo : String) (s : Store) (ev : IndustryEvent) :
    Store :=
  let keywords := eventKeywords ev
  if keywords.isEmpty then s
  else correlateKeywords fiveDaysAgo ev.id keywords s (keywords.take 8)

/-- The `for event in events` loop. -/
def correlateEvents (fiveDaysAgo : String) : List IndustryEvent → Store → Store
  | [], s => s
  | ev :: rest, s =>
    correlateEvents fiveDaysAgo rest (correlateEvent fiveDaysAgo s ev)

/-- The correlation pass of `analyze_articles_for_events` over a fixed
article window and event set. -/
def analyze_articles_for_events (today todayPlus14 todayMinus5 fiveDaysAgo : String)
    (s : Store) : Store :=
  correlateEvents fiveDaysAgo
    (s.industryEvents.filter (eventIsActive today todayPlus14 todayMinus5)) s

/-- The (eventId, articleId) key of each link row. -/
def linkKeys (ls : List EventArticleLink) : List (Nat × Nat) :=
  ls.map (fun l => (l.eventId, l.articleId))

/-- No duplicate (event, article) pair in the link table. -/
def NoDupLinks (s : Store) : Prop := (linkKeys s.eventArticles).Nodup

/-- Primary-key uniqueness of article ids (AUTOINCREMENT invariant). -/
def ArticleIdsNodup (s : Store) : Prop :=
  (s.articles.map (fun a => a.id)).Nodup

/-! ## Claim C6 lemmas -/

/-- Link-membership test as key membership. -/
theorem hasLink_iff (s : Store) (eid aid : Nat) :
    hasLink s eid aid = true ↔ (eid, aid) ∈ linkKeys s.eventArticles := by
  simp only [hasLink, List.any_eq_true, Bool.and_eq_true, beq_iff_eq,
    linkKeys, List.mem_map, Prod.mk.injEq]

/-- `addMatches` appends link rows for a sublist of its matches, and touches
nothing else in the store. -/
theorem addMatches_spec (evId : Nat) (keywords : List String) :
    ∀ (ms : List Article) (s : Store), ∃ sub : List Article,
      sub.Sublist ms ∧
      addMatches evId keywords s ms =
        { s with eventArticles := s.eventArticles ++
            sub.map (fun a => ⟨evId, a.id, eventRelevance keywords a⟩) }
  | [], s => ⟨[], List.Sublist.refl [], by simp [addMatches]⟩
  | a :: rest, s => by
    simp only [addMatches]
    by_cases hrel : (15/100 : ℚ) < eventRelevance keywords a
    · rw [if_pos hrel]
      obtain ⟨sub, hsub, heq⟩ := addMatches_spec evId keywords rest
        { s with eventArticles := s.eventArticles ++
            [⟨evId, a.id, eventRelevance keywords a⟩] }
      refine ⟨a :: sub, hsub.cons₂ a, ?_⟩
      rw [heq]
      simp [List.append_assoc]
    · rw [if_neg hrel]
      obtain ⟨sub, hsub, heq⟩ := addMatches_spec evId keywords rest s
      exact ⟨sub, hsub.cons a, heq⟩

/-- `addMatches` preserves key uniqueness when its matches have distinct
article ids, none of them already linked to the event. -/
theorem addMatches_nodup (evId : Nat) (keywords : List String)
    (ms : List Article) (s : Store)
    (hnd : (linkKeys s.eventArticles).Nodup)
    (hids : (ms.map (fun a => a.id)).Nodup)
    (hnew : ∀ a ∈ ms, (evId, a.id) ∉ linkKeys s.eventArticles) :
    (linkKeys (addMatches evId keywords s ms).eventArticles).Nodup := by
  obtain ⟨sub, hsub, heq⟩ := addMatches_spec evId keywords ms s
  rw [heq]
  simp only [linkKeys, List.map_append, List.map_map]
  refine List.Nodup.append hnd ?_ ?_
  · have h1 : (sub.map (fun a => a.id)).Nodup :=
      (hsub.map (fun a => a.id)).nodup hids
    have h2 : (((sub.map (fun a => a.id))).map (fun i => (evId, i))).Nodup :=
      h1.map (fun x y h => congrArg Prod.snd h)
    rw [List.map_map] at h2
    exact h2
  · intro x hx1 hx2
    rcases List.mem_map.1 hx2 with ⟨a, ha, rfl⟩
    exact hnew a (hsub.subset ha) hx1

/-- The per-keyword query returns articles with pairwise-distinct ids. -/
theorem keywordArticleMatches_ids_nodup (fiveDaysAgo : String) (s : Store)
    (evId : Nat) (kw : String) (h : ArticleIdsNodup s) :
    ((keywordArticleMatches fiveDaysAgo s evId kw).map (fun a => a.id)).Nodup := by
  unfold ArticleIdsNodup at h
  exact ((List.filter_sublist s.articles).map (fun a => a.id)).nodup h

/-- The per-keyword query returns only articles not yet linked to the
event. -/
theorem keywordArticleMatches_unlinked (fiveDaysAgo : String) (s : Store)
    (evId : Nat) (kw : String) :
    ∀ a ∈ keywordArticleMatches fiveDaysAgo s evId kw,
      (evId, a.id) ∉ linkKeys s.eventArticles := by
  intro a ha hmem
  have h2 := (List.mem_filter.1 ha).2
  simp only [Bool.and_eq_true, Bool.not_eq_true'] at h2
  exact absurd ((hasLink_iff s evId a.id).2 hmem) (by rw [h2.2]; exact Bool.false_ne_true)

/-- The keyword loop preserves key uniqueness and never touches the
articles table. -/
theorem correlateKeywords_nodup (fiveDaysAgo : String) (evId : Nat)
    (allKeywords : List String) :
    ∀ (kws : List String) (s : Store), ArticleIdsNodup s →
      (linkKeys s.eventArticles).Nodup →
      (linkKeys (correlateKeywords fiveDaysAgo evId allKeywords s kws).eventArticles).Nodup ∧
      (correlateKeywords fiveDaysAgo evId allKeywords s kws).articles = s.articles
  | [], s, _, hnd => ⟨hnd, rfl⟩
  | kw :: rest, s, hids, hnd => by
    simp only [correlateKeywords]
    obtain ⟨sub, hsub, heq⟩ := addMatches_spec evId allKeywords
      (keywordArticleMatches fiveDaysAgo s evId kw) s
    have hnd1 : (linkKeys (addMatches evId allKeywords s
        (keywordArticleMatches fiveDaysAgo s evId kw)).eventArticles).Nodup :=
      addMatches_nodup evId allKeywords _ s hnd
        (keywordArticleMatches_ids_nodup fiveDaysAgo s evId kw hids)
        (keywordArticleMatches_unlinked fiveDaysAgo s evId kw)
    have hart1 : (addMatches evId allKeywords s
        (keywordArticleMatches fiveDaysAgo s evId kw)).articles = s.articles := by
      rw [heq]
    have hids1 : ArticleIdsNodup (addMatches evId allKeywords s
        (keywordArticleMatches fiveDaysAgo s evId kw)) := by
      unfold ArticleIdsNodup
      rw [hart1]
      exact hids
    obtain ⟨ha, hb⟩ := correlateKeywords_nodup fiveDaysAgo evId allKeywords rest _
      hids1 hnd1
    exact ⟨ha, by rw [hb, hart1]⟩

/-- One event's correlation preserves key uniqueness and the articles
table. -/
theorem correlateEvent_nodup (fiveDaysAgo : String) (s : Store)
    (ev : IndustryEvent) (hids : ArticleIdsNodup s)
    (hnd : (linkKeys s.eventArticles).Nodup) :
    (linkKeys (correlateEvent fiveDaysAgo s ev).eventArticles).Nodup ∧
    (correlateEvent fiveDaysAgo s ev).articles = s.articles := by
  unfold correlateEvent
  dsimp only
  split
  · exact ⟨hnd, rfl⟩
  · exact correlateKeywords_nodup fiveDaysAgo ev.id (eventKeywords ev)
      ((eventKeywords ev).take 8) s hids hnd

/-- The event loop preserves key uniqueness and the articles table. -/
theorem correlateEvents_nodup (fiveDaysAgo : String) :
    ∀ (evs : List IndustryEvent) (s : Store), ArticleIdsNodup s →
      (linkKeys s.eventArticles).Nodup →
      (linkKeys (correlateEvents fiveDaysAgo evs s).eventArticles).Nodup ∧
      (correlateEvents fiveDaysAgo evs s).articles = s.articles
  | [], s, _, hnd => ⟨hnd, rfl⟩
  | ev :: rest, s, hids, hnd => by
    simp only [correlateEvents]
    obtain ⟨h1, h2⟩ := correlateEvent_nodup fiveDaysAgo s ev hids hnd
    have hids1 : ArticleIdsNodup (correlateEvent fiveDaysAgo s ev) := by
      unfold ArticleIdsNodup
      rw [h2]
      exact hids
    obtain ⟨ha, hb⟩ := correlateEvents_nodup fiveDaysAgo rest _ hids1 h1
    exact ⟨ha, by rw [hb, h2]⟩

/-- The correlation pass preserves key uniqueness and the articles table. -/
theorem analyze_preserves_nodup (today todayPlus14 todayMinus5 fiveDaysAgo : String)
    (s : Store) (hids : ArticleIdsNodup s)
    (hnd : NoDupLinks s) :
    NoDupLinks (analyze_articles_for_events today todayPlus14 todayMinus5
      fiveDaysAgo s) ∧
    (analyze_articles_for_events today todayPlus14 todayMinus5 fiveDaysAgo
      s).articles = s.articles :=
  correlateEvents_nodup fiveDaysAgo _ s hids hnd

/-- C6: over any fixed article window and event set, running the correlation
pass twice never leaves a duplicate (eventId, articleId) pair — each pair
occurs at most once after both runs (the pass also leaves the articles
table untouched, so the second run sees the same window). -/
theorem c6_correlator_idempotent_links
    (today todayPlus14 todayMinus5 fiveDaysAgo : String) (s : Store)
    (hids : ArticleIdsNodup s) (hnd : NoDupLinks s) :
    NoDupLinks (analyze_articles_for_events today todayPlus14 todayMinus5
      fiveDaysAgo s) ∧
    NoDupLinks (analyze_articles_for_events today todayPlus14 todayMinus5
      fiveDaysAgo (analyze_articles_for_events today todayPlus14 todayMinus5
        fiveDaysAgo s)) := by
  obtain ⟨h1, h2⟩ := analyze_preserves_nodup today todayPlus14 todayMinus5
    fiveDaysAgo s hids hnd
  have hids1 : ArticleIdsNodup (analyze_articles_for_events today todayPlus14
      todayMinus5 fiveDaysAgo s) := by
    unfold ArticleIdsNodup
    rw [h2]
    exact hids
  exact ⟨h1, (analyze_preserves_nodup today todayPlus14 todayMinus5 fiveDaysAgo
    _ hids1 h1).1⟩

/-- Store for the C6 witness: the spec's Scenario C — an active "CES 2026"
event with hashtags `#CES2026,#5G,#IoT` and one matching article inside the
window. -/
def c6Store : Store :=
  { emptyStore with
    nextArticleId := 2, nextEventId := 2,
    articles := [⟨1, 1, "CES 2026: 5G and IoT innovations",
      "https://ex.com/ces", "5G and IoT everywhere", "", "2026-10-10",
      1/2, "5g, iot"⟩],
    industryEvents := [⟨1, "CES 2026", "#CES2026,#5G,#IoT", "2026-10-20",
      "2026-10-23", true⟩] }

unseal Rat.add Rat.mul Rat.inv Rat.sub in
/-- C6 witness: the idempotence theorem applied to the Scenario-C store; the
pass does create a link there (so the theorem is exercised on a run that
actually inserts), and two runs leave no duplicate pair. -/
theorem c6_correlator_idempotent_links_witness :
    ArticleIdsNodup c6Store ∧ NoDupLinks c6Store ∧
    (analyze_articles_for_events "2026-10-12" "2026-10-26" "2026-10-07"
        "2026-10-07" c6Store).eventArticles.map
          (fun l => (l.eventId, l.articleId)) = [(1, 1)] ∧
    NoDupLinks (analyze_articles_for_events "2026-10-12" "2026-10-26"
      "2026-10-07" "2026-10-07"
      (analyze_articles_for_events "2026-10-12" "2026-10-26" "2026-10-07"
        "2026-10-07" c6Store)) :=
  have hids : ArticleIdsNodup c6Store := by
    unfold ArticleIdsNodup; decide
  have hnd : NoDupLinks c6Store := by
    unfold NoDupLinks; decide
  ⟨hids, hnd, by decide,
    (c6_correlator_idempotent_links "2026-10-12" "2026-10-26" "2026-10-07"
      "2026-10-07" c6Store hids hnd).2⟩

/-! ## Event detector
(`WirelessMonitor.detect_new_events_from_articles`, main.py lines 1930–2036,
and `estimate_event_dates`, lines 2037–2076)

The regular-expression templates themselves are not reimplemented: the
`finditer` parameter stands for `re.finditer` over the article content
(title + space + description), yielding for each raw match its
`group(1)` text and the year parsed from `group(0)` (`none` when the match
carries no year, in which case the source falls back to the current year).
Everything downstream of the matches — grouping by normalized key,
counting, the year filter, the existing-event check, date estimation and
the insert — is translated from the source. -/

/-- A raw `re.finditer` match: `group(1)` and the year found in `group(0)`. -/
structure EventMatch where
  name : String
  year : Option Nat
deriving Repr, DecidableEq

/-- One bucket of the `detected_events` dict: the first-seen name and year,
the number of appended article references (one per MATCH, the way the
source appends), and the accumulated keyword set. -/
structure DetectedEvent where
  name : String
  year : Nat
  articleCount : Nat
  keywords : List String
deriving Repr, DecidableEq

/-- The title pre-filter of the detector's SQL (main.py lines 1950–1957). -/
def detectTitleFilter : List String :=
  ["conference", "summit", "expo", "show", "event", "ces", "mwc", "tech"]

/-- The tech vocabulary scanned for hashtag keywords (main.py line 1996). -/
def tech_keyword_list : List String :=
  ["wireless", "ai", "iot", "5g", "6g", "tech", "innovation", "digital"]

/-- `event_name.lower().replace(' ', '_')` (main.py line 1983). -/
def normalizeEventKey (name : String) : String :=
  ((lowerStr name).data.map (fun c => if c = ' ' then '_' else c)).asString

/-- Python `\w` (regex word character). -/
def isWordChar (c : Char) : Bool := c.isAlphanum || c == '_'

/-- `re.findall(r'\b\w+\b', t)`: maximal word-character runs. -/
def wordRunsAux : List Char → List Char → List String
  | [], cur => if cur.isEmpty then [] else [cur.reverse.asString]
  | c :: rest, cur =>
    if isWordChar c then wordRunsAux rest (c :: cur)
    else if cur.isEmpty then wordRunsAux rest []
    else cur.reverse.asString :: wordRunsAux rest []

/-- Word list of a content string. -/
def contentWords (t : String) : List String := wordRunsAux t.data []

/-- Set-union on keyword lists, keeping first-seen order (Python uses a
`set`, whose iteration order is arbitrary; order only affects the cosmetic
hashtag string, which no claim inspects). -/
def dedupAppend (acc : List String) (ws : List String) : List String :=
  ws.foldl (fun acc w => if acc.contains w then acc else acc ++ [w]) acc

/-- Record one match in the `detected_events` dict (insertion-ordered, as a
Python dict): an existing key keeps its first-seen name/year and gets one
more article reference; a new key opens a bucket with count 1. -/
def insertMatch : List (String × DetectedEvent) → String → String → Nat →
    List String → List (String × DetectedEvent)
  | [], key, name, year, kws => [(key, ⟨name, year, 1, dedupAppend [] kws⟩)]
  | (k, d) :: rest, key, name, year, kws =>
    if k == key then
      (k, { d with articleCount := d.articleCount + 1,
                   keywords := dedupAppend d.keywords kws }) :: rest
    else (k, d) :: insertMatch rest key name year kws

/-- The known recurring-event schedule of `estimate_event_dates`
(month, start day, duration; main.py lines 2039–2049). -/
def known_events : List (String × Nat × Nat × Nat) :=
  [("ces", 1, 7, 4), ("mwc", 2, 26, 4), ("rsa", 5, 6, 4),
   ("computex", 5, 28, 5), ("wwdc", 6, 5, 5), ("black hat", 8, 3, 4),
   ("ifa", 9, 1, 6), ("oracle openworld", 9, 16, 4)]

/-- Decimal digit character. -/
def natDigitChar (n : Nat) : Char := Char.ofNat (48 + n % 10)

/-- `f"{n:02d}"` for the two-digit month/day fields the source builds. -/
def pad2 (n : Nat) : String :=
  if n < 10 then ⟨['0', natDigitChar n]⟩
  else ⟨[natDigitChar (n / 10), natDigitChar n]⟩

/-- `f"{year}"` for the four-digit years the `20\d{2}` regexes guarantee. -/
def natToDigits4 (n : Nat) : String :=
  ⟨[natDigitChar (n / 1000), natDigitChar (n / 100), natDigitChar (n / 10),
    natDigitChar n]⟩

/-- Python `s.replace(' ', '')`. -/
def removeSpaces (s : String) : String :=
  (s.data.filter (fun c => c ≠ ' ')).asString

/-- `WirelessMonitor.estimate_event_dates`: look the lower-cased name up in
the known schedule (substring match, first hit in table order), else default
to the 15th–17th of next month (rolling into January of the next year). -/
def estimate_event_dates (eventName : String) (year nowMonth : Nat) :
    String × String :=
  match known_events.find? (fun kv => containsStr (lowerStr eventName) kv.1) with
  | some (_, m, d, dur) =>
    (natToDigits4 year ++ "-" ++ pad2 m ++ "-" ++ pad2 d,
     natToDigits4 year ++ "-" ++ pad2 m ++ "-" ++ pad2 (d + dur - 1))
  | none =>
    let next := nowMonth + 1
    let my := if next > 12 then (1, year + 1) else (next, year)
    (natToDigits4 my.2 ++ "-" ++ pad2 my.1 ++ "-15",
     natToDigits4 my.2 ++ "-" ++ pad2 my.1 ++ "-17")

/-- `WirelessMonitor.detect_new_events_from_articles`.  `threeDaysAgo`
stands for `DATE('now','-3 days')`; `currentYear`/`nowMonth` for
`datetime.now().year/.month`.  The source's past-year skip is
`year < now.year or (year == now.year and now.month > 12)`, whose second
disjunct is vacuous, so only `year < currentYear` remains.  A bucket
becomes an event when it holds at least two article references — the
source appends one reference PER MATCH, so two matches inside a single
article suffice — and no existing event matches the name (substring, both
lower-cased) with a start date beginning with the year. -/
def detect_new_events_from_articles (finditer : String → List EventMatch)
    (currentYear nowMonth : Nat) (threeDaysAgo : String) (s : Store) : Store :=
  let recent := s.articles.filter (fun a =>
    strLe threeDaysAgo a.publishedDate &&
    detectTitleFilter.any (fun w => containsStr (lowerStr a.title) w))
  let grouped := recent.foldl (fun acc a =>
    let content := a.title ++ " " ++ a.description
    (finditer content).foldl (fun acc m =>
      let year := m.year.getD currentYear
      if year < currentYear then acc
      else
        let event_name := trimStr m.name
        let key := normalizeEventKey event_name
        let techKws := (contentWords (lowerStr content)).filter
          (fun w => tech_keyword_list.contains w)
        insertMatch acc key event_name year techKws) acc) []
  grouped.foldl (fun s kd =>
    let d := kd.2
    if 2 ≤ d.articleCount then
      if s.industryEvents.any (fun e =>
          containsStr (lowerStr e.name) (lowerStr d.name) &&
          charStartsWith (natToDigits4 d.year).data e.startDate.data) then s
      else
        let dates := estimate_event_dates d.name d.year nowMonth
        let hashtags :=
          if d.keywords.isEmpty then
            "#" ++ removeSpaces d.name ++ natToDigits4 d.year
          else joinWith "," ((d.keywords.take 10).map (fun k => "#" ++ k))
        { s with
          industryEvents := s.industryEvents ++
            [⟨s.nextEventId, d.name ++ " " ++ natToDigits4 d.year, hashtags,
              dates.1, dates.2, true⟩],
          nextEventId := s.nextEventId + 1 }
    else s) s

/-- Store for C7: a SINGLE recent article whose title and description each
contain a "`<Name> <Year>` summit|expo" shape for the same normalized key. -/
def c7Store : Store :=
  { emptyStore with
    nextArticleId := 2,
    articles := [⟨1, 1, "Wireless 2026 Summit preview",
      "https://ex.com/w26", "Highlights from the Wireless 2026 Expo floor",
      "", "2026-10-11", 1/2, "wireless"⟩] }

/-- The `re.finditer` outcome on that single article's content: the
conference pattern `(\w+\s+20\d{2})\s*(?:conference|summit|expo|show|event)`
matches twice ("Wireless 2026 Summit…" and "…Wireless 2026 Expo"), both
with `group(1) = "Wireless 2026"` and year 2026; no other content
matches. -/
def c7Finditer : String → List EventMatch := fun content =>
  if content ==
      "Wireless 2026 Summit preview Highlights from the Wireless 2026 Expo floor"
  then [⟨"Wireless 2026", some 2026⟩, ⟨"Wireless 2026", some 2026⟩]
  else []

/-- C7: the source comment says "Only add if multiple articles mention it",
and the claim says a key needs at least two DISTINCT supporting articles —
but the detector appends one reference per MATCH, so a single article
matching the pattern twice already creates a new IndustryEvent.  (The
year part of the claim does hold: the same two matches dated 2020 < 2026
create nothing.)  Evaluated at the failing input: a one-article store
yields one new event. -/
theorem c7_single_article_creates_event :
    c7Store.articles.length = 1 ∧
    (detect_new_events_from_articles c7Finditer 2026 10 "2026-10-09"
        c7Store).industryEvents.map (fun e => e.name)
      = ["Wireless 2026 2026"] ∧
    (detect_new_events_from_articles
        (fun _ => [⟨"Wireless 2020", some 2020⟩, ⟨"Wireless 2020", some 2020⟩])
        2026 10 "2026-10-09" c7Store).industryEvents = [] := by
  refine ⟨rfl, by decide, by decide⟩
